import Mathlib

/-!
Verification of the omniforge SAT certification pipeline against its
natural-language specification.

The Python sources under `src/omniforge` are shallowly embedded:

* `lanes/sat_lane.py` — the DIMACS result classifier and the fail-closed
  two-checker pipeline `run_sat_two_checker`.  External process invocations
  and file-system writes are modelled by an environment record (`SatEnv`)
  supplying the observable behaviour of each external call, and by an
  explicit effect trace (`Effect`).  Uncaught Python exceptions become
  `Except.error` values.
* `artifacts/pack.py` — `create_demo_run_bundle` and
  `verify_run_bundle_hashes`.  The bundle directory is modelled as an
  association list of (relative path, file content) writes, later writes
  shadowing earlier ones.  `sha256_file` lives in
  `omniforge/artifacts/manifest.py`, which is not part of the provided
  sources; it is modelled from the spec as an abstract digest function.
-/

namespace Omniforge

/-! ## String helpers mirroring the Python primitives used by the source -/

/-- Python `str.splitlines` restricted to the line separators `\n`, `\r\n`
and `\r` (the only separators that occur in solver output); no trailing
empty line is produced, and the empty string yields no lines. -/
def splitlinesAux : Bool → List Char → List Char → List String
  | _, [], acc => if acc.isEmpty then [] else [String.mk acc.reverse]
  | afterCR, c :: rest, acc =>
    if afterCR && c == '\n' then splitlinesAux false rest acc
    else if c == '\n' then String.mk acc.reverse :: splitlinesAux false rest []
    else if c == '\r' then String.mk acc.reverse :: splitlinesAux true rest []
    else splitlinesAux false rest (c :: acc)

/-- Python `str.splitlines` on a string. -/
def splitlines (s : String) : List String :=
  splitlinesAux false s.data []

/-- The ASCII whitespace characters stripped by Python `str.strip()`. -/
def isPySpace (c : Char) : Bool :=
  c == ' ' || c == '\t' || c == '\n' || c == '\r' || c == '\x0b' || c == '\x0c'

/-- Python `str.strip()` (ASCII whitespace). -/
def pyStrip (s : String) : String :=
  String.mk (((s.data.dropWhile isPySpace).reverse.dropWhile isPySpace).reverse)

/-- `strStarts pat cs` holds when `pat` is an initial segment of `cs`. -/
def strStarts : List Char → List Char → Bool
  | [], _ => true
  | _ :: _, [] => false
  | p :: ps, c :: cs => p == c && strStarts ps cs

/-- `subOccurs pat hay`: `pat` occurs contiguously inside `hay`. -/
def subOccurs (pat : List Char) : List Char → Bool
  | [] => strStarts pat []
  | c :: t => strStarts pat (c :: t) || subOccurs pat t

/-- Python substring containment `pat in s`. -/
def strContains (s pat : String) : Bool :=
  subOccurs pat.data s.data

/-- Python `s.startswith(pre)`. -/
def pyStartsWith (s pre : String) : Bool :=
  strStarts pre.data s.data

/-! ## `_parse_dimacs_status` (src/omniforge/lanes/sat_lane.py, lines 53-63) -/

/-- The line scan of `_parse_dimacs_status`: each line is stripped; a line
starting with `"s "` is tested for the markers `UNSAT`, then `SAT`, then
`UNKNOWN`; a solution line with no recognized marker is skipped, like any
other line; exhausting the lines yields `UNKNOWN`. -/
def statusOfLines : List String → String
  | [] => "UNKNOWN"
  | raw :: rest =>
    let line := pyStrip raw
    if pyStartsWith line "s " then
      if strContains line "UNSAT" then "UNSAT"
      else if strContains line "SAT" then "SAT"
      else if strContains line "UNKNOWN" then "UNKNOWN"
      else statusOfLines rest
    else statusOfLines rest

/-- `_parse_dimacs_status` from `sat_lane.py`. -/
def _parse_dimacs_status (stdout : String) : String :=
  statusOfLines (splitlines stdout)

/-- A line that (after stripping) begins with the solution marker `"s "`. -/
def isSolnLine (raw : String) : Bool :=
  pyStartsWith (pyStrip raw) "s "

/-- A solution line carrying one of the three recognized markers. -/
def isMarkerLine (raw : String) : Bool :=
  let l := pyStrip raw
  pyStartsWith l "s " && (strContains l "UNSAT" || strContains l "SAT" || strContains l "UNKNOWN")

/-- The classification the scan assigns to a marker-bearing solution line:
`UNSAT` is tested before `SAT`, and `SAT` before `UNKNOWN`. -/
def classifyMarkerLine (raw : String) : String :=
  let l := pyStrip raw
  if strContains l "UNSAT" then "UNSAT"
  else if strContains l "SAT" then "SAT"
  else "UNKNOWN"

/-! ## JSON serialization helpers

The source serializes with `json.dumps(..., indent=2, sort_keys=True)`
(`ensure_ascii` left at its default).  The fixed document shapes used by the
source are reproduced below; characters outside the ASCII printable range
are `\u`-escaped by code point (astral code points, which Python encodes as
surrogate pairs, do not occur in the data handled here). -/

/-- Lowercase hexadecimal digit. -/
def hexDigit (n : Nat) : Char :=
  if n < 10 then Char.ofNat (48 + n) else Char.ofNat (87 + n)

/-- Four lowercase hex digits of a code point below 0x10000. -/
def hex4 (n : Nat) : List Char :=
  [hexDigit (n / 4096 % 16), hexDigit (n / 256 % 16), hexDigit (n / 16 % 16), hexDigit (n % 16)]

/-- JSON escaping of one character, as performed by `json.dumps`. -/
def escChar (c : Char) : List Char :=
  if c = '"' then ['\\', '"']
  else if c = '\\' then ['\\', '\\']
  else if c = '\n' then ['\\', 'n']
  else if c = '\r' then ['\\', 'r']
  else if c = '\t' then ['\\', 't']
  else if c = '\x08' then ['\\', 'b']
  else if c = '\x0c' then ['\\', 'f']
  else if c.toNat < 0x20 || c.toNat ≥ 0x80 then '\\' :: 'u' :: hex4 c.toNat
  else [c]

/-- JSON escaping of a string body. -/
def jsonEscape (s : String) : String :=
  String.mk (List.flatten (s.data.map escChar))

/-- A JSON string literal. -/
def jsonStr (s : String) : String :=
  "\"" ++ jsonEscape s ++ "\""

/-- A JSON boolean literal. -/
def boolLit : Bool → String
  | true => "true"
  | false => "false"

/-- Join strings with a separator. -/
def joinSep (sep : String) : List String → String
  | [] => ""
  | [x] => x
  | x :: y :: t => x ++ sep ++ joinSep sep (y :: t)

/-! ## Data model of `sat_lane.py` -/

/-- `ProofCheck` (src/omniforge/lanes/sat_lane.py, lines 10-29): the
immutable record of one checker invocation. -/
structure ProofCheck where
  checker : String
  ok : Bool
  returncode : Int
  stdout : String
  stderr : String

deriving DecidableEq

/-- `ProofCheck.to_json`: `json.dumps` of the five fields with `indent=2,
sort_keys=True` (key order: checker, ok, returncode, stderr, stdout). -/
def ProofCheck.to_json (pc : ProofCheck) : String :=
  "\x7b\n  \"checker\": " ++ jsonStr pc.checker ++
  ",\n  \"ok\": " ++ boolLit pc.ok ++
  ",\n  \"returncode\": " ++ toString pc.returncode ++
  ",\n  \"stderr\": " ++ jsonStr pc.stderr ++
  ",\n  \"stdout\": " ++ jsonStr pc.stdout ++
  "\n\x7d"

/-- `SatExecResult` (sat_lane.py, lines 32-41): the terminal outcome of one
pipeline run. -/
structure SatExecResult where
  result : String
  stdout : String
  stderr : String
  commandline : List String
  drat_relpath : Option String
  lrat_relpath : Option String
  check_drat : Option ProofCheck
  check_lrat : Option ProofCheck

deriving DecidableEq

/-- The captured observable behaviour of one completed external process:
`subprocess.CompletedProcess` with text capture (`stdout`/`stderr` are
`None` only on timeout capture, but the source defends with `or ""`). -/
structure ProcOut where
  stdout : Option String
  stderr : Option String
  returncode : Int

deriving DecidableEq

/-- Behaviour of one `_run` call that was given a timeout: either the
process completed, or `subprocess.TimeoutExpired` fired carrying the
partial captured output. -/
inductive RunOutcome where
  | completed (p : ProcOut)
  | timedOut (stdout stderr : Option String)

deriving DecidableEq

/-- The environment of one `run_sat_two_checker` call: existence of the
three executables, the behaviour of each of the (up to) four external
process invocations in program order, and the state of the DRAT proof file
after the first solver run (the solver writes it as a side effect). -/
structure SatEnv where
  cadicalExists : Bool
  dratTrimExists : Bool
  lratTrimExists : Bool
  solverRun : RunOutcome
  dratExists : Bool
  dratContent : String
  dratCheckRun : ProcOut
  lratRun : RunOutcome
  lratCheckRun : ProcOut

deriving DecidableEq

/-- Observable side effects of the pipeline, in program order.  Spawns
carry the full command line and the `timeout` argument passed to
`subprocess.run`; file-system effects are recorded with paths relative to
`out_dir` (the source builds the same paths from `out_dir` and uses
`relative_to(out_dir)` when recording them). -/
inductive Effect where
  | spawn (cmd : List String) (timeout : Option Nat)
  | unlink (relpath : String)
  | writeFile (relpath : String) (content : String)

deriving DecidableEq

/-- Python exceptions that can escape the embedded functions. -/
inductive PyExn where
  | fileNotFound (msg : String)
  | timeoutExpired
  | runtimeError (msg : String)
  | schemaValidationError

deriving DecidableEq

/-- The keyword arguments of `run_sat_two_checker`. -/
structure SatArgs where
  root : String
  cnfPath : String
  seed : Int
  wallSeconds : Nat
  outDir : String

/-- Relative path of the DRAT proof inside the run directory. -/
def dratRel : String := "proofs/proof.drat"

/-- Relative path of the LRAT proof inside the run directory. -/
def lratRel : String := "proofs/proof.lrat"

/-- Relative path of the drat-trim check report. -/
def dratCheckRel : String := "proofcheck/drat-trim.json"

/-- Relative path of the lrat-trim check report. -/
def lratCheckRel : String := "proofcheck/lrat-trim.json"

/-- First solver command (sat_lane.py, lines 104-110). -/
def satSolveCmd (a : SatArgs) : List String :=
  [a.root ++ "/tools/bin/cadical", "--seed=" ++ toString a.seed, "--no-binary",
   a.cnfPath, a.outDir ++ "/proofs/proof.drat"]

/-- drat-trim command (sat_lane.py, line 162). -/
def dratCheckCmd (a : SatArgs) : List String :=
  [a.root ++ "/tools/bin/drat-trim", a.cnfPath, a.outDir ++ "/proofs/proof.drat"]

/-- Second solver command producing the LRAT proof on stdout
(sat_lane.py, line 176). -/
def lratGenCmd (a : SatArgs) : List String :=
  [a.root ++ "/tools/bin/cadical", "--seed=" ++ toString a.seed, "--lrat", a.cnfPath, "-"]

/-- lrat-trim command (sat_lane.py, line 196). -/
def lratCheckCmd (a : SatArgs) : List String :=
  [a.root ++ "/tools/bin/lrat-trim", a.cnfPath, a.outDir ++ "/proofs/proof.lrat"]

/-- `run_sat_two_checker` (sat_lane.py, lines 70-228).  The returned pair
is (normal return or escaped exception, side-effect trace).  An empty
proof file is the `st_size == 0` test of the source: a file's size is zero
exactly when its content is the empty string. -/
def run_sat_two_checker (a : SatArgs) (env : SatEnv) :
    Except PyExn SatExecResult × List Effect :=
  if !env.cadicalExists then
    (.error (.fileNotFound ("missing executable: " ++ a.root ++ "/tools/bin/cadical")), [])
  else if !env.dratTrimExists then
    (.error (.fileNotFound ("missing executable: " ++ a.root ++ "/tools/bin/drat-trim")), [])
  else if !env.lratTrimExists then
    (.error (.fileNotFound ("missing executable: " ++ a.root ++ "/tools/bin/lrat-trim")), [])
  else
    let cmd := satSolveCmd a
    match env.solverRun with
    | .timedOut so se =>
      (.ok { result := "TIMEOUT", stdout := so.getD "", stderr := se.getD "",
             commandline := cmd, drat_relpath := none, lrat_relpath := none,
             check_drat := none, check_lrat := none },
       [.spawn cmd (some a.wallSeconds)])
    | .completed p =>
      let stdout := p.stdout.getD ""
      let stderr := p.stderr.getD ""
      let status := _parse_dimacs_status stdout
      if status ≠ "UNSAT" then
        (.ok { result := if p.returncode = 0 then status else "ERROR", stdout := stdout,
               stderr := stderr, commandline := cmd, drat_relpath := none,
               lrat_relpath := none, check_drat := none, check_lrat := none },
         [.spawn cmd (some a.wallSeconds)] ++
           (if env.dratExists then [.unlink dratRel] else []))
      else if !env.dratExists || env.dratContent = "" then
        (.ok { result := "ERROR", stdout := stdout,
               stderr := stderr ++ "\nmissing or empty DRAT proof\n", commandline := cmd,
               drat_relpath := none, lrat_relpath := none,
               check_drat := none, check_lrat := none },
         [.spawn cmd (some a.wallSeconds)])
      else
        let cp := env.dratCheckRun
        let chk_drat : ProofCheck :=
          { checker := "drat-trim", ok := cp.returncode == 0, returncode := cp.returncode,
            stdout := cp.stdout.getD "", stderr := cp.stderr.getD "" }
        let effs1 := [Effect.spawn cmd (some a.wallSeconds),
                      Effect.spawn (dratCheckCmd a) none,
                      Effect.writeFile dratCheckRel chk_drat.to_json]
        match env.lratRun with
        | .timedOut _ _ =>
          (.error .timeoutExpired, effs1 ++ [.spawn (lratGenCmd a) (some a.wallSeconds)])
        | .completed lcp =>
          let lrat_text := lcp.stdout.getD ""
          let effs2 := effs1 ++ [Effect.spawn (lratGenCmd a) (some a.wallSeconds),
                                 Effect.writeFile lratRel lrat_text]
          if lrat_text = "" then
            (.ok { result := "ERROR", stdout := stdout,
                   stderr := stderr ++ "\nmissing or empty LRAT proof\n",
                   commandline := cmd, drat_relpath := some dratRel, lrat_relpath := none,
                   check_drat := some chk_drat, check_lrat := none }, effs2)
          else
            let lcp2 := env.lratCheckRun
            let chk_lrat : ProofCheck :=
              { checker := "lrat-trim", ok := lcp2.returncode == 0,
                returncode := lcp2.returncode,
                stdout := lcp2.stdout.getD "", stderr := lcp2.stderr.getD "" }
            let effs3 := effs2 ++ [Effect.spawn (lratCheckCmd a) none,
                                   Effect.writeFile lratCheckRel chk_lrat.to_json]
            if !(chk_drat.ok && chk_lrat.ok) then
              (.ok { result := "ERROR", stdout := stdout,
                     stderr := stderr ++ "\nUNSAT proof verification failed (two-checker)\n",
                     commandline := cmd, drat_relpath := some dratRel,
                     lrat_relpath := some lratRel,
                     check_drat := some chk_drat, check_lrat := some chk_lrat }, effs3)
            else
              (.ok { result := "UNSAT", stdout := stdout, stderr := stderr,
                     commandline := cmd, drat_relpath := some dratRel,
                     lrat_relpath := some lratRel,
                     check_drat := some chk_drat, check_lrat := some chk_lrat }, effs3)

deriving instance DecidableEq for Except

/-! ## Concrete fixtures used by witnesses and counterexamples -/

/-- Arguments of a demo-shaped run. -/
def argsDemo : SatArgs :=
  { root := "/repo", cnfPath := "/repo/artifacts/run_demo/input.cnf", seed := 0,
    wallSeconds := 5, outDir := "/repo/artifacts/run_demo" }

/-- A completed process with the given stdout and exit code. -/
def procOut (out : String) (rc : Int) : ProcOut :=
  { stdout := some out, stderr := some "", returncode := rc }

/-- Environment of a fully successful UNSAT certification. -/
def envBothPass : SatEnv :=
  { cadicalExists := true, dratTrimExists := true, lratTrimExists := true,
    solverRun := .completed (procOut "s UNSATISFIABLE\n" 20),
    dratExists := true, dratContent := "0\n",
    dratCheckRun := procOut "s VERIFIED\n" 0,
    lratRun := .completed (procOut "1 0\n" 20),
    lratCheckRun := procOut "s VERIFIED\n" 0 }

/-- Same run but the first checker rejects and the second accepts. -/
def envFirstFails : SatEnv :=
  { envBothPass with dratCheckRun := procOut "" 1 }

/-- The drat-trim record of the run where the first checker rejects. -/
def chkDratFail : ProofCheck :=
  { checker := "drat-trim", ok := false, returncode := 1, stdout := "", stderr := "" }

/-- The lrat-trim record of the run where the second checker accepts. -/
def chkLratPass : ProofCheck :=
  { checker := "lrat-trim", ok := true, returncode := 0,
    stdout := "s VERIFIED\n", stderr := "" }

/-- The terminal outcome of the first-checker-fails run. -/
def resFirstFails : SatExecResult :=
  { result := "ERROR", stdout := "s UNSATISFIABLE\n",
    stderr := "\nUNSAT proof verification failed (two-checker)\n",
    commandline := satSolveCmd argsDemo, drat_relpath := some dratRel,
    lrat_relpath := some lratRel, check_drat := some chkDratFail,
    check_lrat := some chkLratPass }

/-! ### Claim C5 (terminal outcomes versus exceptions) -/

/-- `true` on an `Except` value that is a normal return. -/
def isOkE : Except PyExn SatExecResult → Bool
  | .ok _ => true
  | .error _ => false

/-- `true` when a `_run` call completed without a timeout. -/
def RunOutcome.isCompleted : RunOutcome → Bool
  | .completed _ => true
  | .timedOut _ _ => false

/-- Environment where the second (LRAT-producing) solver invocation hits
the wall-clock timeout. -/
def envLratTimeout : SatEnv :=
  { envBothPass with lratRun := .timedOut none none }

/-- Environment where the LRAT rerun completes but streams no proof. -/
def envLratEmpty : SatEnv :=
  { envBothPass with lratRun := .completed (procOut "" 20) }

/-- Environment of a satisfiable run that left a DRAT file behind. -/
def envSat : SatEnv :=
  { envBothPass with solverRun := .completed (procOut "s SATISFIABLE\n" 0) }

/-! ## `pack.py`: bundle creation and reproduction verification

The bundle directory is an association list of (relative path, content)
writes in program order; `fsGet` returns the content of the **last** write
to a path, so overwriting a file is appending a new pair.  `sha256_file`
(from `omniforge/artifacts/manifest.py`, not among the provided sources)
is passed in as an abstract digest function over file contents. -/

/-- Modelled from the spec: `sha256_file`, imported by `pack.py` from
`omniforge/artifacts/manifest.py`, is not among the provided sources.  Per
the spec it "computes a deterministic content hash (256-bit cryptographic
digest, hex-encoded)" of a file.  It is modelled as an abstract
deterministic digest function over file content, assumed collision-free
exactly where a claim needs two digests to differ; witnesses instantiate
it with the identity function, which is injective and executable. -/
def DigestFn : Type := String → String

/-- Content of a path in the modelled directory: the last write wins. -/
def fsGet : List (String × String) → String → Option String
  | [], _ => none
  | (p, c) :: t, k =>
    match fsGet t k with
    | some v => some v
    | none => if p = k then some c else none

/-- Overwrite (or create) one file. -/
def fsSet (fs : List (String × String)) (k v : String) : List (String × String) :=
  fs ++ [(k, v)]

/-- Dictionary lookup in a manifest hash map (keys are unique). -/
def assocGet : List (String × String) → String → Option String
  | [], _ => none
  | (p, c) :: t, k => if p = k then some c else assocGet t k

/-- The file writes contained in a pipeline effect trace, in order. -/
def effectWrites : List Effect → List (String × String)
  | [] => []
  | .writeFile p c :: t => (p, c) :: effectWrites t
  | _ :: t => effectWrites t

/-- Whether the trace deleted a file. -/
def hasUnlink : List Effect → Bool
  | [] => false
  | .unlink _ :: _ => true
  | _ :: t => hasUnlink t

/-- The DRAT proof file present in the run directory after the pipeline:
the external solver wrote it (it ran at all and `dratExists`) and the
pipeline did not delete it. -/
def dratFiles (senv : SatEnv) (effs : List Effect) : List (String × String) :=
  if senv.dratExists && !hasUnlink effs && !effs.isEmpty then
    [(dratRel, senv.dratContent)]
  else []

/-- Lexicographic code-point comparison of character lists (the string
order used by Python when sorting keys). -/
def charsLe : List Char → List Char → Bool
  | [], _ => true
  | _ :: _, [] => false
  | a :: as, b :: bs =>
    if a.toNat < b.toNat then true
    else if b.toNat < a.toNat then false
    else charsLe as bs

/-- `a <= b` on strings by code points. -/
def keyLe (a b : String) : Bool := charsLe a.data b.data

/-- Insertion into a key-sorted association list. -/
def insertSorted (kv : String × String) :
    List (String × String) → List (String × String)
  | [] => [kv]
  | h :: t => if keyLe kv.1 h.1 then kv :: h :: t else h :: insertSorted kv t

/-- Sorting by key, as `sort_keys=True` does for a JSON object. -/
def sortByKey : List (String × String) → List (String × String)
  | [] => []
  | h :: t => insertSorted h (sortByKey t)

/-- A JSON array with the given item and closing-bracket indentation. -/
def jsonArrayAt (itemPad closePad : String) (items : List String) : String :=
  match items with
  | [] => "[]"
  | _ => "[\n" ++ joinSep ",\n" (items.map (fun s => itemPad ++ jsonStr s)) ++
         "\n" ++ closePad ++ "]"

/-- An optional JSON string (`null` for Python `None`). -/
def jsonOptStr : Option String → String
  | none => "null"
  | some s => jsonStr s

/-- The `Manifest` document built by `create_demo_run_bundle`
(pack.py, lines 50-72), flattened to its fixed shape. -/
structure Manifest where
  manifest_version : String
  run_id : String
  timestamp_utc : String
  lane : String
  bench_suite : String
  case_id : String
  bundle_cnf_path : String
  executor : String
  genome_seed : Int
  genome_notes : String
  commandline : List String
  proof_policy_two : Bool
  checkers : List String
  result : String
  stdout_path : String
  stderr_path : String
  drat_proof_path : Option String
  lrat_proof_path : Option String
  drat_check_path : String
  lrat_check_path : String
  hashes : List (String × String)

deriving DecidableEq

/-- The part of `json.dumps(manifest, indent=2, sort_keys=True)` that
precedes the value of the `"hashes"` key (top-level keys in sorted order:
candidate, hashes, inputs, lane, manifest_version, outputs, run_id,
timestamp_utc).  Independent of the `hashes` field. -/
def manifestPre (m : Manifest) : String :=
  "\x7b\n  \"candidate\": \x7b\n    \"commandline\": " ++
    jsonArrayAt "      " "    " m.commandline ++
  ",\n    \"executor\": " ++ jsonStr m.executor ++
  ",\n    \"genome\": \x7b\n      \"notes\": " ++ jsonStr m.genome_notes ++
  ",\n      \"seed\": " ++ toString m.genome_seed ++
  "\n    \x7d,\n    \"proof_policy\": \x7b\n      \"checkers\": " ++
    jsonArrayAt "        " "      " m.checkers ++
  ",\n      \"unsat_requires_two_checkers\": " ++ boolLit m.proof_policy_two ++
  "\n    \x7d\n  \x7d,\n  \"hashes\": "

/-- The serialized `hashes` object (entries already key-sorted). -/
def hashesJson : List (String × String) → String
  | [] => "\x7b\x7d"
  | kv :: t =>
    "\x7b\n" ++
      joinSep ",\n" ((kv :: t).map (fun e => "    " ++ jsonStr e.1 ++ ": " ++ jsonStr e.2)) ++
    "\n  \x7d"

/-- The part of the serialization after the `"hashes"` value.
Independent of the `hashes` field. -/
def manifestPost (m : Manifest) : String :=
  ",\n  \"inputs\": \x7b\n    \"bench_suite\": " ++ jsonStr m.bench_suite ++
  ",\n    \"bundle_cnf_path\": " ++ jsonStr m.bundle_cnf_path ++
  ",\n    \"case_id\": " ++ jsonStr m.case_id ++
  "\n  \x7d,\n  \"lane\": " ++ jsonStr m.lane ++
  ",\n  \"manifest_version\": " ++ jsonStr m.manifest_version ++
  ",\n  \"outputs\": \x7b\n    \"drat_check_path\": " ++ jsonStr m.drat_check_path ++
  ",\n    \"drat_proof_path\": " ++ jsonOptStr m.drat_proof_path ++
  ",\n    \"lrat_check_path\": " ++ jsonStr m.lrat_check_path ++
  ",\n    \"lrat_proof_path\": " ++ jsonOptStr m.lrat_proof_path ++
  ",\n    \"result\": " ++ jsonStr m.result ++
  ",\n    \"stderr_path\": " ++ jsonStr m.stderr_path ++
  ",\n    \"stdout_path\": " ++ jsonStr m.stdout_path ++
  "\n  \x7d,\n  \"run_id\": " ++ jsonStr m.run_id ++
  ",\n  \"timestamp_utc\": " ++ jsonStr m.timestamp_utc ++
  "\n\x7d"

/-- `json.dumps(manifest, indent=2, sort_keys=True)`. -/
def serializeManifest (m : Manifest) : String :=
  manifestPre m ++ hashesJson (sortByKey m.hashes) ++ manifestPost m

/-- Environment of one `create_demo_run_bundle` call: existence of the
benchmark CNF and its content, the generated run identifier and
timestamp, the pipeline's environment, and whether the final manifest
passes the external JSON-Schema validation (modelled from the spec:
schema loading and `jsonschema` validation are external to the core). -/
structure PackEnv where
  benchExists : Bool
  cnfContent : String
  runId : String
  timestampUtc : String
  sat : SatEnv
  schemaOk : Bool

/-- The run directory `root/artifacts/run_<run_id>`. -/
def runDirOf (root runId : String) : String :=
  root ++ "/artifacts/run_" ++ runId

/-- The arguments `create_demo_run_bundle` passes to the pipeline
(pack.py, lines 34-40): seed 0, wall clock 5 seconds. -/
def packArgs (root : String) (env : PackEnv) : SatArgs :=
  { root := root, cnfPath := runDirOf root env.runId ++ "/input.cnf", seed := 0,
    wallSeconds := 5, outDir := runDirOf root env.runId }

/-- The manifest value of pack.py lines 50-72, before hashes are filled. -/
def manifestOf (env : PackEnv) (res : SatExecResult) : Manifest :=
  { manifest_version := "0.3.0", run_id := env.runId,
    timestamp_utc := env.timestampUtc, lane := "sat",
    bench_suite := "sat.tiny", case_id := "tiny/unsat_contradiction.cnf",
    bundle_cnf_path := "input.cnf", executor := "cadical",
    genome_seed := 0, genome_notes := "two-checker UNSAT verification",
    commandline := res.commandline, proof_policy_two := true,
    checkers := ["drat-trim", "lrat-trim"], result := res.result,
    stdout_path := "solver_stdout.txt", stderr_path := "solver_stderr.txt",
    drat_proof_path := res.drat_relpath, lrat_proof_path := res.lrat_relpath,
    drat_check_path := "proofcheck/drat-trim.json",
    lrat_check_path := "proofcheck/lrat-trim.json",
    hashes := [] }

/-- `create_demo_run_bundle` (pack.py, lines 20-97), parametrized by the
digest function.  Returns (normal return of the run id or escaped
exception, the writes performed inside the run directory, the final
manifest value when one was built).  Step order: copy the input, run the
pipeline, demand UNSAT, write solver logs, write the manifest with empty
hashes, hash every referenced file as read from disk, overwrite the
manifest with the filled hash map, validate against the schema. -/
def create_demo_run_bundle (digest : DigestFn) (root : String) (env : PackEnv) :
    Except PyExn String × List (String × String) × Option Manifest :=
  if !env.benchExists then
    (.error (.fileNotFound ("missing benchmark CNF: " ++ root ++
        "/benches/sat/tiny/unsat_contradiction.cnf")), [], none)
  else
    let files0 := [("input.cnf", env.cnfContent)]
    match run_sat_two_checker (packArgs root env) env.sat with
    | (.error e, effs) =>
      (.error e, files0 ++ dratFiles env.sat effs ++ effectWrites effs, none)
    | (.ok res, effs) =>
      let files1 := files0 ++ dratFiles env.sat effs ++ effectWrites effs
      if res.result ≠ "UNSAT" then
        (.error (.runtimeError ("demo expected UNSAT, got " ++ res.result)), files1, none)
      else
        let files2 := files1 ++ [("solver_stdout.txt", res.stdout),
                                 ("solver_stderr.txt", res.stderr)]
        let m0 := manifestOf env res
        let files3 := files2 ++ [("manifest.json", serializeManifest m0)]
        let hashEntry := fun (rel : String) => (rel, digest ((fsGet files3 rel).getD ""))
        let hashes :=
          [hashEntry "input.cnf", hashEntry "solver_stdout.txt",
           hashEntry "solver_stderr.txt", hashEntry "manifest.json"] ++
          ([res.drat_relpath, res.lrat_relpath, some "proofcheck/drat-trim.json",
            some "proofcheck/lrat-trim.json"].filterMap
            (fun o => match o with
              | none => none
              | some rel => if rel = "" then none else some (hashEntry rel)))
        let m1 := { m0 with hashes := hashes }
        let files4 := files3 ++ [("manifest.json", serializeManifest m1)]
        if !env.schemaOk then
          (.error .schemaValidationError, files4, some m1)
        else
          (.ok env.runId, files4, some m1)

/-- `verify_run_bundle_hashes` (pack.py, lines 100-121), parametrized by
the digest function.  The source loads `manifest.json` from disk and
iterates `manifest["hashes"].items()`; after a round trip through the
canonical serialization the parsed hash map is the manifest value's hash
map in sorted key order, which is what the embedding iterates.  Returns
the `ok` flag and the detail entries (the source joins them with
newlines). -/
def verify_run_bundle_hashes (digest : DigestFn)
    (runDirFiles : List (String × String)) (manifest : Manifest) :
    Bool × List String :=
  (sortByKey manifest.hashes).foldl
    (fun acc kv =>
      match fsGet runDirFiles kv.1 with
      | none => (false, acc.2 ++ ["missing: " ++ kv.1])
      | some content =>
        if digest content = kv.2 then acc
        else (false, acc.2 ++ ["mismatch: " ++ kv.1 ++ " expected=" ++ kv.2 ++
                               " got=" ++ digest content]))
    (true, [])

/-- The identity digest: injective and executable, used by witnesses. -/
def idDigest : DigestFn := fun s => s

/-- A concrete successful demo environment. -/
def packEnvDemo : PackEnv :=
  { benchExists := true, cnfContent := "p cnf 1 2\n1 0\n-1 0\n",
    runId := "20250101T000000Z-00000000", timestampUtc := "2025-01-01T00:00:00Z",
    sat := envBothPass, schemaOk := true }

/-- The concrete demo bundle creation. -/
def createDemo : Except PyExn String × List (String × String) × Option Manifest :=
  create_demo_run_bundle idDigest "/repo" packEnvDemo

/-- The manifest of the concrete demo bundle. -/
def mDemo : Manifest :=
  (createDemo.2.2).getD (manifestOf packEnvDemo resFirstFails)

/-- Environment whose solver reported SAT. -/
def packEnvSat : PackEnv :=
  { packEnvDemo with sat := envSat }

/-- The scan is equivalent to: find the first marker-bearing solution line
and classify it; otherwise `UNKNOWN`. -/
lemma statusOfLines_eq_find (lines : List String) :
    statusOfLines lines =
      (match lines.find? isMarkerLine with
        | some l => classifyMarkerLine l
        | none => "UNKNOWN") := by
  induction lines with
  | nil => rfl
  | cons raw rest ih =>
    simp only [statusOfLines, List.find?]
    by_cases hs : pyStartsWith (pyStrip raw) "s " = true
    · by_cases h1 : strContains (pyStrip raw) "UNSAT" = true
      · simp [isMarkerLine, classifyMarkerLine, hs, h1]
      · by_cases h2 : strContains (pyStrip raw) "SAT" = true
        · simp [isMarkerLine, classifyMarkerLine, hs, h1, h2]
        · by_cases h3 : strContains (pyStrip raw) "UNKNOWN" = true
          · simp [isMarkerLine, classifyMarkerLine, hs, h1, h2, h3]
          · simp [isMarkerLine, hs, h1, h2, h3, ih]
    · simp [isMarkerLine, hs, ih]

/-! ### Claims C2 and C8 (the DIMACS classifier) -/

/-- C2, as stated, is false: an output containing the solution line
`s UNSATISFIABLE` can still classify as `SAT` when an earlier solution
line already carried the satisfiable marker. -/
theorem C2_counterexample :
    ("s UNSATISFIABLE" ∈ splitlines "s SATISFIABLE\ns UNSATISFIABLE") ∧
    _parse_dimacs_status "s SATISFIABLE\ns UNSATISFIABLE" = "SAT" := by
  decide

/-- C2 (amended): for every solver stdout whose first marker-bearing
solution line contains the unsatisfiable keyword — in particular the line
`s UNSATISFIABLE` — `_parse_dimacs_status` classifies the output as UNSAT
and never as SAT: the unsatisfiable marker is tested before the
satisfiable marker. -/
theorem C2_unsat_before_sat (stdout l : String)
    (hfind : (splitlines stdout).find? isMarkerLine = some l)
    (hu : strContains (pyStrip l) "UNSAT" = true) :
    _parse_dimacs_status stdout = "UNSAT" ∧ _parse_dimacs_status stdout ≠ "SAT" := by
  have h := statusOfLines_eq_find (splitlines stdout)
  have hcls : _parse_dimacs_status stdout = "UNSAT" := by
    unfold _parse_dimacs_status
    rw [h, hfind]
    simp [classifyMarkerLine, hu]
  refine ⟨hcls, ?_⟩
  rw [hcls]
  decide

/-- Witness for C2 (amended) at the concrete output `s UNSATISFIABLE`. -/
theorem C2_unsat_before_sat_witness :
    _parse_dimacs_status "s UNSATISFIABLE" = "UNSAT" ∧
    _parse_dimacs_status "s UNSATISFIABLE" ≠ "SAT" :=
  C2_unsat_before_sat "s UNSATISFIABLE" "s UNSATISFIABLE" (by decide) (by decide)

/-- C8, as stated, is false: two outputs sharing the same first solution
line (the stripped-line `"s "` test) can classify differently, because a
solution line carrying no recognized marker is skipped and a later line
then decides the status. -/
theorem C8_counterexample :
    (splitlines "s x").find? isSolnLine =
      (splitlines "s x\ns SATISFIABLE").find? isSolnLine ∧
    _parse_dimacs_status "s x" = "UNKNOWN" ∧
    _parse_dimacs_status "s x\ns SATISFIABLE" = "SAT" := by
  decide

/-- C8 (amended): the classification is determined by the first
marker-bearing solution line (solution lines with no recognized marker
are skipped); if no such line exists the status is UNKNOWN. -/
theorem C8_first_marker_line_determines (stdout : String) :
    _parse_dimacs_status stdout =
      (match (splitlines stdout).find? isMarkerLine with
        | some l => classifyMarkerLine l
        | none => "UNKNOWN") :=
  statusOfLines_eq_find (splitlines stdout)

/-! ### Claim C1 (the fail-closed decision) -/

/-- C1: the pipeline returns UNSAT only when both checker records are
present and both report ok; whenever both checks ran (both records
present) and not both passed, the result is ERROR and the outcome still
carries both proof relative paths and both records. -/
theorem C1_two_checker_decision (a : SatArgs) (env : SatEnv) (r : SatExecResult)
    (effs : List Effect)
    (hrun : run_sat_two_checker a env = (.ok r, effs)) :
    (r.result = "UNSAT" →
      ∃ cd cl, r.check_drat = some cd ∧ r.check_lrat = some cl ∧
        cd.ok = true ∧ cl.ok = true) ∧
    (∀ cd cl, r.check_drat = some cd → r.check_lrat = some cl →
      ¬(cd.ok = true ∧ cl.ok = true) →
      r.result = "ERROR" ∧ r.drat_relpath = some dratRel ∧
        r.lrat_relpath = some lratRel ∧ r.check_drat = some cd ∧
        r.check_lrat = some cl) := by
  simp only [run_sat_two_checker] at hrun
  repeat' split at hrun
  all_goals simp only [Prod.mk.injEq, Except.ok.injEq] at hrun
  all_goals try exact Except.noConfusion hrun.1
  all_goals
    obtain ⟨hr, he⟩ := hrun
    subst hr
    subst he
    simp_all

/-- Witness for C1 at a concrete run where the first checker fails and
the second succeeds: the final result is ERROR with both records and both
proof paths present. -/
theorem C1_two_checker_decision_witness :
    resFirstFails.result = "ERROR" ∧ resFirstFails.drat_relpath = some dratRel ∧
      resFirstFails.lrat_relpath = some lratRel ∧
      resFirstFails.check_drat = some chkDratFail ∧
      resFirstFails.check_lrat = some chkLratPass :=
  (C1_two_checker_decision argsDemo envFirstFails resFirstFails
      (run_sat_two_checker argsDemo envFirstFails).2 (by decide)).2
    chkDratFail chkLratPass (by decide) (by decide) (by decide)

/-- C5, as stated, is false: a timeout of the second solver invocation is
an intrinsic pipeline condition, yet it escapes `run_sat_two_checker` as
an uncaught `subprocess.TimeoutExpired` instead of a terminal result. -/
theorem C5_counterexample :
    (run_sat_two_checker argsDemo envLratTimeout).1 = .error .timeoutExpired ∧
    isOkE (run_sat_two_checker argsDemo envLratTimeout).1 = false := by
  decide

/-- C5 (amended): when the three executables are present and the second
solver invocation does not time out, every intrinsic pipeline condition —
timeout of the first solver invocation, bad solver exit, missing or empty
proof, failed checker — is captured as a terminal `SatExecResult`;
no exception escapes.  (A timeout of the second invocation, by contrast,
escapes uncaught.) -/
theorem C5_terminal_outcomes (a : SatArgs) (env : SatEnv)
    (hc : env.cadicalExists = true) (hd : env.dratTrimExists = true)
    (hl : env.lratTrimExists = true)
    (hlr : env.lratRun.isCompleted = true) :
    isOkE (run_sat_two_checker a env).1 = true := by
  unfold run_sat_two_checker
  simp only [hc, hd, hl]
  repeat' split
  all_goals simp_all [RunOutcome.isCompleted, isOkE]

/-- Witness for C5 (amended): the run with a failing first checker ends in
a normal terminal result. -/
theorem C5_terminal_outcomes_witness :
    isOkE (run_sat_two_checker argsDemo envFirstFails).1 = true :=
  C5_terminal_outcomes argsDemo envFirstFails rfl rfl rfl (by decide)

/-! ### Claim C6 (empty LRAT proof keeps partial certification state) -/

/-- C6: when the solver classifies UNSAT, the DRAT proof exists and is
non-empty, but the LRAT proof produced by the rerun is empty, the result
is ERROR tagged "missing or empty LRAT proof", the DRAT relative path and
the DRAT check record are retained, and the LRAT fields are None. -/
theorem C6_empty_lrat_keeps_partial_state (a : SatArgs) (env : SatEnv)
    (hc : env.cadicalExists = true) (hd : env.dratTrimExists = true)
    (hl : env.lratTrimExists = true)
    (p : ProcOut) (hsr : env.solverRun = .completed p)
    (hstatus : _parse_dimacs_status (p.stdout.getD "") = "UNSAT")
    (hde : env.dratExists = true) (hdc : env.dratContent ≠ "")
    (lcp : ProcOut) (hlr : env.lratRun = .completed lcp)
    (hempty : lcp.stdout.getD "" = "") :
    (run_sat_two_checker a env).1 =
      .ok { result := "ERROR", stdout := p.stdout.getD "",
            stderr := p.stderr.getD "" ++ "\nmissing or empty LRAT proof\n",
            commandline := satSolveCmd a,
            drat_relpath := some dratRel, lrat_relpath := none,
            check_drat := some { checker := "drat-trim",
                                 ok := env.dratCheckRun.returncode == 0,
                                 returncode := env.dratCheckRun.returncode,
                                 stdout := env.dratCheckRun.stdout.getD "",
                                 stderr := env.dratCheckRun.stderr.getD "" },
            check_lrat := none } := by
  simp [run_sat_two_checker, hc, hd, hl, hsr, hstatus, hde, hdc, hlr, hempty]

/-- Witness for C6 at a concrete run with an empty LRAT proof. -/
theorem C6_empty_lrat_keeps_partial_state_witness :
    (run_sat_two_checker argsDemo envLratEmpty).1 =
      .ok { result := "ERROR", stdout := "s UNSATISFIABLE\n",
            stderr := "\nmissing or empty LRAT proof\n",
            commandline := satSolveCmd argsDemo,
            drat_relpath := some dratRel, lrat_relpath := none,
            check_drat := some { checker := "drat-trim", ok := true, returncode := 0,
                                 stdout := "s VERIFIED\n", stderr := "" },
            check_lrat := none } := by
  have h := C6_empty_lrat_keeps_partial_state argsDemo envLratEmpty rfl rfl rfl
    (procOut "s UNSATISFIABLE\n" 20) rfl (by decide) rfl (by decide)
    (procOut "" 20) rfl (by decide)
  exact h.trans (by decide)

/-! ### Claim C7 (non-UNSAT classification: status, cleanup, empty outcome) -/

/-- C7: when the classified status is not UNSAT, the pipeline returns the
classified status if the solver exited 0 and ERROR otherwise; the outcome
carries no proof paths and no check records, and the side-effect trace
deletes the DRAT proof file exactly when the solver produced one. -/
theorem C7_non_unsat_cleanup (a : SatArgs) (env : SatEnv)
    (hc : env.cadicalExists = true) (hd : env.dratTrimExists = true)
    (hl : env.lratTrimExists = true)
    (p : ProcOut) (hsr : env.solverRun = .completed p)
    (hstatus : _parse_dimacs_status (p.stdout.getD "") ≠ "UNSAT") :
    (run_sat_two_checker a env).1 =
      .ok { result := if p.returncode = 0 then _parse_dimacs_status (p.stdout.getD "")
                      else "ERROR",
            stdout := p.stdout.getD "", stderr := p.stderr.getD "",
            commandline := satSolveCmd a, drat_relpath := none, lrat_relpath := none,
            check_drat := none, check_lrat := none } ∧
    (run_sat_two_checker a env).2 =
      [Effect.spawn (satSolveCmd a) (some a.wallSeconds)] ++
        (if env.dratExists then [Effect.unlink dratRel] else []) := by
  constructor <;> simp [run_sat_two_checker, hc, hd, hl, hsr, hstatus]

/-- Witness for C7 at a concrete SAT run: status SAT, empty optional
fields, and the stray proof file deleted. -/
theorem C7_non_unsat_cleanup_witness :
    (run_sat_two_checker argsDemo envSat).1 =
      .ok { result := "SAT", stdout := "s SATISFIABLE\n", stderr := "",
            commandline := satSolveCmd argsDemo, drat_relpath := none,
            lrat_relpath := none, check_drat := none, check_lrat := none } ∧
    (run_sat_two_checker argsDemo envSat).2 =
      [Effect.spawn (satSolveCmd argsDemo) (some 5), Effect.unlink dratRel] := by
  have h := C7_non_unsat_cleanup argsDemo envSat rfl rfl rfl
    (procOut "s SATISFIABLE\n" 0) rfl (by decide)
  exact ⟨h.1.trans (by decide), h.2.trans (by decide)⟩

/-! ### Claim C9 (which invocations carry the wall-clock timeout) -/

/-- C9, as stated, is false: the second (LRAT proof-generation) solver
invocation is also passed the wall-clock timeout. -/
theorem C9_counterexample :
    Effect.spawn (lratGenCmd argsDemo) (some argsDemo.wallSeconds) ∈
      (run_sat_two_checker argsDemo envBothPass).2 ∧
    Effect.spawn (lratGenCmd argsDemo) none ∉
      (run_sat_two_checker argsDemo envBothPass).2 := by
  decide

/-- C9 (amended): both solver invocations (the initial run and the LRAT
proof-generation rerun) are bounded by the configured wall-clock timeout,
while the two checker invocations run with no timeout bound. -/
theorem C9_spawn_timeouts (a : SatArgs) (env : SatEnv) (cmd : List String)
    (t : Option Nat)
    (hmem : Effect.spawn cmd t ∈ (run_sat_two_checker a env).2) :
    (cmd = satSolveCmd a ∧ t = some a.wallSeconds) ∨
    (cmd = dratCheckCmd a ∧ t = none) ∨
    (cmd = lratGenCmd a ∧ t = some a.wallSeconds) ∨
    (cmd = lratCheckCmd a ∧ t = none) := by
  simp only [run_sat_two_checker] at hmem
  repeat' split at hmem
  all_goals simp_all
  all_goals tauto

/-- Witness for C9 (amended): the drat-trim invocation of the successful
run carries no timeout. -/
theorem C9_spawn_timeouts_witness :
    (dratCheckCmd argsDemo = satSolveCmd argsDemo ∧
      (none : Option Nat) = some argsDemo.wallSeconds) ∨
    (dratCheckCmd argsDemo = dratCheckCmd argsDemo ∧
      (none : Option Nat) = none) ∨
    (dratCheckCmd argsDemo = lratGenCmd argsDemo ∧
      (none : Option Nat) = some argsDemo.wallSeconds) ∨
    (dratCheckCmd argsDemo = lratCheckCmd argsDemo ∧
      (none : Option Nat) = none) :=
  C9_spawn_timeouts argsDemo envBothPass (dratCheckCmd argsDemo) none (by decide)

/-! ## Helper lemmas about the file-system and trace model -/

lemma fsGet_append (l1 l2 : List (String × String)) (k : String) :
    fsGet (l1 ++ l2) k =
      (match fsGet l2 k with
        | some v => some v
        | none => fsGet l1 k) := by
  induction l1 with
  | nil =>
    cases h : fsGet l2 k <;> simp [fsGet, h]
  | cons hd t ih =>
    obtain ⟨p, c⟩ := hd
    show fsGet ((p, c) :: (t ++ l2)) k = _
    simp only [fsGet]
    rw [ih]
    cases fsGet l2 k <;> cases fsGet t k <;> simp

lemma fsGet_append_last (l : List (String × String)) (k v : String) :
    fsGet (l ++ [(k, v)]) k = some v := by
  rw [fsGet_append]
  simp [fsGet]

lemma fsGet_append_single_ne (l : List (String × String)) (k k' v : String)
    (h : k' ≠ k) :
    fsGet (l ++ [(k', v)]) k = fsGet l k := by
  rw [fsGet_append]
  simp [fsGet, h]

lemma mem_effectWrites (effs : List Effect) (p c : String) :
    (p, c) ∈ effectWrites effs ↔ Effect.writeFile p c ∈ effs := by
  induction effs with
  | nil => simp [effectWrites]
  | cons e t ih => cases e <;> simp [effectWrites, ih]

lemma run_writes (a : SatArgs) (env : SatEnv) (p c : String)
    (hmem : Effect.writeFile p c ∈ (run_sat_two_checker a env).2) :
    p = lratRel ∨ p = dratCheckRel ∨ p = lratCheckRel := by
  simp only [run_sat_two_checker] at hmem
  repeat' split at hmem
  all_goals simp_all
  all_goals tauto

/-- On the fully successful and on the checker-rejected paths alike, a
terminal run with `result = "UNSAT"` has both relative proof paths set, a
surviving DRAT file, and exactly the three pipeline writes in its trace. -/
lemma run_unsat_shape (a : SatArgs) (env : SatEnv) (r : SatExecResult)
    (effs : List Effect)
    (hrun : run_sat_two_checker a env = (.ok r, effs)) (hres : r.result = "UNSAT") :
    r.drat_relpath = some dratRel ∧ r.lrat_relpath = some lratRel ∧
    env.dratExists = true ∧ hasUnlink effs = false ∧ effs.isEmpty = false ∧
    ∃ j1 lt j2, effectWrites effs =
      [(dratCheckRel, j1), (lratRel, lt), (lratCheckRel, j2)] := by
  simp only [run_sat_two_checker] at hrun
  repeat' split at hrun
  all_goals simp only [Prod.mk.injEq, Except.ok.injEq] at hrun
  all_goals try exact Except.noConfusion hrun.1
  all_goals obtain ⟨hr, he⟩ := hrun
  all_goals subst hr
  all_goals subst he
  all_goals simp_all [effectWrites, hasUnlink]

/-! ## Helper lemmas about the canonical serialization -/

lemma insertSorted_ne_nil (kv : String × String) (l : List (String × String)) :
    insertSorted kv l ≠ [] := by
  cases l with
  | nil => simp [insertSorted]
  | cons h t =>
    simp only [insertSorted]
    split <;> simp

lemma sortByKey_ne_nil (l : List (String × String)) (h : l ≠ []) :
    sortByKey l ≠ [] := by
  cases l with
  | nil => exact absurd rfl h
  | cons a t => simpa [sortByKey] using insertSorted_ne_nil a (sortByKey t)

lemma hashesJson_cons_length (kv : String × String) (t : List (String × String)) :
    (hashesJson (kv :: t)).length =
      6 + (joinSep ",\n"
        ((kv :: t).map (fun e => "    " ++ jsonStr e.1 ++ ": " ++ jsonStr e.2))).length := by
  show ("\x7b\n" ++ _ ++ "\n  \x7d").length = _
  rw [String.length_append, String.length_append]
  have h1 : ("\x7b\n" : String).length = 2 := rfl
  have h2 : ("\n  \x7d" : String).length = 4 := rfl
  omega

/-- Emptying a non-empty hash map changes the canonical serialization:
the two documents have different lengths. -/
lemma serializeManifest_hashes_ne (m : Manifest) (hne : m.hashes ≠ []) :
    serializeManifest { m with hashes := [] } ≠ serializeManifest m := by
  intro heq
  have hpre : manifestPre { m with hashes := [] } = manifestPre m := rfl
  have hpost : manifestPost { m with hashes := [] } = manifestPost m := rfl
  have hs : sortByKey ({ m with hashes := ([] : List (String × String)) } :
      Manifest).hashes = [] := rfl
  unfold serializeManifest at heq
  rw [hpre, hpost, hs] at heq
  obtain ⟨x, t, hxt⟩ : ∃ x t, sortByKey m.hashes = x :: t := by
    cases hsk : sortByKey m.hashes with
    | nil => exact absurd hsk (sortByKey_ne_nil _ hne)
    | cons x t => exact ⟨x, t, rfl⟩
  rw [hxt] at heq
  have hlen := congrArg String.length heq
  rw [String.length_append, String.length_append, String.length_append,
      String.length_append, hashesJson_cons_length] at hlen
  have h0 : (hashesJson []).length = 2 := rfl
  omega

/-! ### Claim C3 (the manifest self-hash is the pre-final content's) -/

/-- C3: in every bundle produced by `create_demo_run_bundle`, the digest
stored under the manifest's own path equals the digest of the manifest
serialization with an empty hash map (the step-2 pre-final write), and —
for any collision-free digest — differs from the digest of the manifest
file's final on-disk content. -/
theorem C3_manifest_self_hash (digest : DigestFn) (root : String)
    (env : PackEnv) (rid : String) (fs : List (String × String)) (m : Manifest)
    (hcreate : create_demo_run_bundle digest root env = (.ok rid, fs, some m)) :
    assocGet m.hashes "manifest.json" =
      some (digest (serializeManifest { m with hashes := [] })) ∧
    fsGet fs "manifest.json" = some (serializeManifest m) ∧
    ((∀ x y, digest x = digest y → x = y) →
      digest (serializeManifest { m with hashes := [] }) ≠
        digest (serializeManifest m)) := by
  simp only [create_demo_run_bundle] at hcreate
  repeat' split at hcreate
  all_goals simp only [Prod.mk.injEq, Except.ok.injEq, Option.some.injEq] at hcreate
  all_goals try exact Except.noConfusion hcreate.1
  obtain ⟨h1, h2, h3⟩ := hcreate
  subst h2
  subst h3
  refine ⟨?_, ?_, ?_⟩
  · simp only [List.cons_append, List.nil_append, assocGet, if_true]
    simp only [fsGet]
    try simp only [List.append_eq]
    rw [fsGet_append_last]
    rfl
  · simp only [fsGet]
    try simp only [List.append_eq]
    rw [fsGet_append_last]
  · intro hinj heq
    exact serializeManifest_hashes_ne _ (by simp) (hinj _ _ heq)

set_option maxRecDepth 100000 in
/-- Witness for C3 at the concrete demo bundle sealed with the identity
digest: the stored self-hash is the pre-final serialization, and it
differs from the final on-disk manifest content. -/
theorem C3_manifest_self_hash_witness :
    assocGet mDemo.hashes "manifest.json" =
      some (idDigest (serializeManifest { mDemo with hashes := [] })) ∧
    fsGet createDemo.2.1 "manifest.json" = some (serializeManifest mDemo) ∧
    idDigest (serializeManifest { mDemo with hashes := [] }) ≠
      idDigest (serializeManifest mDemo) := by
  have h1 : createDemo.1 = .ok "20250101T000000Z-00000000" := by decide
  have hsome : (createDemo.2.2).isSome = true := by decide
  have h3 : createDemo.2.2 = some mDemo := by
    unfold mDemo
    cases hc : createDemo.2.2 with
    | none => rw [hc] at hsome; exact absurd hsome (by simp)
    | some mv => simp
  have hcr : create_demo_run_bundle idDigest "/repo" packEnvDemo =
      (Except.ok "20250101T000000Z-00000000", createDemo.2.1, some mDemo) := by
    have he : createDemo = (createDemo.1, createDemo.2.1, createDemo.2.2) := rfl
    rw [h1, h3] at he
    exact he
  have h := C3_manifest_self_hash idDigest "/repo" packEnvDemo
    "20250101T000000Z-00000000" createDemo.2.1 mDemo hcr
  exact ⟨h.1, h.2.1, h.2.2 (fun x y hxy => hxy)⟩

lemma fsGet_eq_none (l : List (String × String)) (k : String) :
    fsGet l k = none ↔ ∀ kv ∈ l, kv.1 ≠ k := by
  induction l with
  | nil => simp [fsGet]
  | cons hd t ih =>
    obtain ⟨p, c⟩ := hd
    simp only [fsGet]
    cases h : fsGet t k with
    | some v =>
      simp only [List.mem_cons]
      constructor
      · intro hfalse
        exact Option.noConfusion hfalse
      · intro hall
        have hn : fsGet t k = none := ih.mpr (fun kv hkv => hall kv (Or.inr hkv))
        rw [h] at hn
        exact Option.noConfusion hn
    | none =>
      by_cases hp : p = k
      · simp only [hp, if_pos rfl, List.mem_cons]
        constructor
        · intro hfalse
          exact Option.noConfusion hfalse
        · intro hall
          exact absurd rfl (hall (k, c) (Or.inl rfl))
      · simp only [if_neg hp, List.mem_cons, true_iff]
        intro kv hkv
        rcases hkv with hkv | hkv
        · rw [hkv]
          exact hp
        · exact (ih.mp h) kv hkv

/-! ### Claim C10 (non-UNSAT runs abort before logs and manifest) -/

/-- C10: when the pipeline returns normally with any result other than
UNSAT, `create_demo_run_bundle` raises `RuntimeError` before writing the
solver logs or any manifest: the run directory holds at most the copied
input and proof/proofcheck artifacts, and no manifest value is built. -/
theorem C10_non_unsat_raises (digest : DigestFn) (root : String)
    (env : PackEnv) (hbench : env.benchExists = true)
    (res : SatExecResult) (effs : List Effect)
    (hrun : run_sat_two_checker (packArgs root env) env.sat = (.ok res, effs))
    (hres : res.result ≠ "UNSAT") :
    (create_demo_run_bundle digest root env).1 =
      .error (.runtimeError ("demo expected UNSAT, got " ++ res.result)) ∧
    (create_demo_run_bundle digest root env).2.2 = none ∧
    fsGet (create_demo_run_bundle digest root env).2.1 "manifest.json" = none ∧
    fsGet (create_demo_run_bundle digest root env).2.1 "solver_stdout.txt" = none ∧
    fsGet (create_demo_run_bundle digest root env).2.1 "solver_stderr.txt" = none ∧
    (∀ kv ∈ (create_demo_run_bundle digest root env).2.1,
      kv.1 = "input.cnf" ∨ kv.1 = dratRel ∨ kv.1 = lratRel ∨
      kv.1 = dratCheckRel ∨ kv.1 = lratCheckRel) := by
  have hc : create_demo_run_bundle digest root env =
      (.error (.runtimeError ("demo expected UNSAT, got " ++ res.result)),
       [("input.cnf", env.cnfContent)] ++ dratFiles env.sat effs ++ effectWrites effs,
       none) := by
    simp [create_demo_run_bundle, hbench, hrun, hres]
  rw [hc]
  have hkeys : ∀ kv ∈ [("input.cnf", env.cnfContent)] ++ dratFiles env.sat effs ++
      effectWrites effs,
      kv.1 = "input.cnf" ∨ kv.1 = dratRel ∨ kv.1 = lratRel ∨
      kv.1 = dratCheckRel ∨ kv.1 = lratCheckRel := by
    intro kv hkv
    rcases List.mem_append.mp hkv with hkv | hkv
    · rcases List.mem_append.mp hkv with hkv | hkv
      · left
        simpa using congrArg Prod.fst (List.mem_singleton.mp hkv)
      · unfold dratFiles at hkv
        split at hkv
        · right; left
          simpa using congrArg Prod.fst (List.mem_singleton.mp hkv)
        · exact absurd hkv (List.not_mem_nil kv)
    · obtain ⟨p, c⟩ := kv
      have hw := (mem_effectWrites effs p c).mp hkv
      rw [show effs = (run_sat_two_checker (packArgs root env) env.sat).2 by
        rw [hrun]] at hw
      rcases run_writes _ _ _ _ hw with h | h | h
      · right; right; left; exact h
      · right; right; right; left; exact h
      · right; right; right; right; exact h
  refine ⟨rfl, rfl, ?_, ?_, ?_, hkeys⟩
  · exact (fsGet_eq_none _ _).mpr (fun kv hkv => by
      rcases hkeys kv hkv with h | h | h | h | h <;> rw [h] <;> decide)
  · exact (fsGet_eq_none _ _).mpr (fun kv hkv => by
      rcases hkeys kv hkv with h | h | h | h | h <;> rw [h] <;> decide)
  · exact (fsGet_eq_none _ _).mpr (fun kv hkv => by
      rcases hkeys kv hkv with h | h | h | h | h <;> rw [h] <;> decide)

/-- Witness for C10 at a concrete SAT run: RuntimeError, no manifest, no
solver logs. -/
theorem C10_non_unsat_raises_witness :
    (create_demo_run_bundle idDigest "/repo" packEnvSat).1 =
      .error (.runtimeError "demo expected UNSAT, got SAT") ∧
    (create_demo_run_bundle idDigest "/repo" packEnvSat).2.2 = none ∧
    fsGet (create_demo_run_bundle idDigest "/repo" packEnvSat).2.1 "manifest.json" = none ∧
    fsGet (create_demo_run_bundle idDigest "/repo" packEnvSat).2.1 "solver_stdout.txt" = none ∧
    fsGet (create_demo_run_bundle idDigest "/repo" packEnvSat).2.1 "solver_stderr.txt" = none := by
  have h := C10_non_unsat_raises idDigest "/repo" packEnvSat rfl
    { result := "SAT", stdout := "s SATISFIABLE\n", stderr := "",
      commandline := satSolveCmd (packArgs "/repo" packEnvSat),
      drat_relpath := none, lrat_relpath := none,
      check_drat := none, check_lrat := none }
    (run_sat_two_checker (packArgs "/repo" packEnvSat) packEnvSat.sat).2
    (by decide) (by decide)
  exact ⟨h.1, h.2.1, h.2.2.1, h.2.2.2.1, h.2.2.2.2.1⟩

/-- Every successfully sealed bundle has this concrete shape: the
pipeline returned UNSAT, the run directory holds the eight artifact files
(with the manifest written twice, pre-final then final), and the manifest
hash map holds the digests of the eight files as they were on disk before
the final manifest overwrite. -/
lemma create_ok_shape (digest : DigestFn) (root : String) (env : PackEnv)
    (rid : String) (fs : List (String × String)) (m : Manifest)
    (hcreate : create_demo_run_bundle digest root env = (.ok rid, fs, some m)) :
    ∃ res effs j1 lt j2,
      run_sat_two_checker (packArgs root env) env.sat = (.ok res, effs) ∧
      res.result = "UNSAT" ∧ rid = env.runId ∧
      m = { manifestOf env res with hashes :=
        [("input.cnf", digest env.cnfContent),
         ("solver_stdout.txt", digest res.stdout),
         ("solver_stderr.txt", digest res.stderr),
         ("manifest.json", digest (serializeManifest (manifestOf env res))),
         (dratRel, digest env.sat.dratContent),
         (lratRel, digest lt),
         (dratCheckRel, digest j1),
         (lratCheckRel, digest j2)] } ∧
      fs = [("input.cnf", env.cnfContent), (dratRel, env.sat.dratContent),
            (dratCheckRel, j1), (lratRel, lt), (lratCheckRel, j2),
            ("solver_stdout.txt", res.stdout), ("solver_stderr.txt", res.stderr),
            ("manifest.json", serializeManifest (manifestOf env res)),
            ("manifest.json", serializeManifest m)] := by
  cases hb : env.benchExists with
  | false => simp [create_demo_run_bundle, hb] at hcreate
  | true =>
    cases hrun : run_sat_two_checker (packArgs root env) env.sat with
    | mk r1 effs =>
      cases r1 with
      | error e => simp [create_demo_run_bundle, hb, hrun] at hcreate
      | ok res =>
        by_cases hres : res.result = "UNSAT"
        · by_cases hsch : env.schemaOk
          · simp only [create_demo_run_bundle, hb, hrun, hres, hsch] at hcreate
            simp only [Bool.not_true, Bool.false_eq_true, if_false, ite_false,
              ne_eq, not_true_eq_false, Prod.mk.injEq, Except.ok.injEq,
              Option.some.injEq] at hcreate
            obtain ⟨h1, h2, h3⟩ := hcreate
            obtain ⟨hdr, hlr, hde, hunl, hnemp, j1, lt, j2, hew⟩ :=
              run_unsat_shape _ _ _ _ hrun hres
            subst h1
            refine ⟨res, effs, j1, lt, j2, rfl, hres, rfl, ?_, ?_⟩
            · rw [← h3]
              simp +decide [hdr, hlr, dratFiles, hde, hunl, hnemp, hew, fsGet,
                dratRel, lratRel, dratCheckRel, lratCheckRel]
            · rw [← h2, ← h3]
              simp +decide [hdr, hlr, dratFiles, hde, hunl, hnemp, hew, fsGet,
                dratRel, lratRel, dratCheckRel, lratCheckRel]
          · simp [create_demo_run_bundle, hb, hrun, hres, hsch] at hcreate
        · simp [create_demo_run_bundle, hb, hrun, hres] at hcreate

lemma strStarts_append (p s t : List Char) (h : strStarts p s = true) :
    strStarts p (s ++ t) = true := by
  induction p generalizing s with
  | nil => rfl
  | cons a ps ih =>
    cases s with
    | nil => simp [strStarts] at h
    | cons b bs =>
      simp only [List.cons_append, strStarts, Bool.and_eq_true] at h ⊢
      exact ⟨h.1, ih bs h.2⟩

/-- A prefix of a string is a prefix of any extension of it. -/
lemma pyStartsWith_append (s t pre : String) (h : pyStartsWith s pre = true) :
    pyStartsWith (s ++ t) pre = true := by
  unfold pyStartsWith at h ⊢
  rw [String.data_append]
  exact strStarts_append _ _ _ h

/-- A prefix survives three further appended pieces (the shape of a
mismatch detail entry: literal head, expected digest, separator, got
digest). -/
lemma prefix_extend3 (s t u v pre : String) (h : pyStartsWith s pre = true) :
    pyStartsWith (s ++ t ++ u ++ v) pre = true :=
  pyStartsWith_append _ _ _ (pyStartsWith_append _ _ _ (pyStartsWith_append _ _ _ h))

/-! ### Claim C4 (single-byte proof mutation and reproduction) -/

set_option maxRecDepth 400000 in
/-- C4, as stated, is false: with the demo bundle sealed under the
identity digest, changing one byte of the DRAT proof (`"0\n"` to `"1\n"`)
makes reproduction report `ok = false` with **two** mismatch entries, not
exactly one — the manifest self-hash entry of C3 always mismatches as
well. -/
theorem C4_counterexample :
    (verify_run_bundle_hashes idDigest (fsSet createDemo.2.1 dratRel "1\n") mDemo).1
      = false ∧
    (verify_run_bundle_hashes idDigest (fsSet createDemo.2.1 dratRel "1\n") mDemo).2.length
      = 2 ∧
    ((verify_run_bundle_hashes idDigest (fsSet createDemo.2.1 dratRel "1\n") mDemo).2.all
      (fun e => pyStartsWith e "mismatch: ")) = true := by
  refine ⟨by decide, by decide, by decide⟩

set_option maxRecDepth 1000 in
/-- C4 (amended): mutating one proof file of a sealed bundle and then
running reproduction reports `ok = false` with exactly two mismatch
entries: the ever-present manifest self-hash mismatch (see C3) and one
entry naming the mutated proof file's relative path; no other entry
appears. -/
theorem C4_mutated_proof_mismatch (digest : DigestFn) (root : String)
    (env : PackEnv) (rid : String) (fs : List (String × String)) (m : Manifest)
    (hcreate : create_demo_run_bundle digest root env = (.ok rid, fs, some m))
    (hinj : ∀ x y, digest x = digest y → x = y)
    (rel newContent oldContent : String)
    (hrel : rel = dratRel ∨ rel = lratRel)
    (hold : fsGet fs rel = some oldContent)
    (hnew : newContent ≠ oldContent) :
    (verify_run_bundle_hashes digest (fsSet fs rel newContent) m).1 = false ∧
    ∃ e1 e2, (verify_run_bundle_hashes digest (fsSet fs rel newContent) m).2 = [e1, e2] ∧
      pyStartsWith e1 "mismatch: manifest.json " = true ∧
      pyStartsWith e2 ("mismatch: " ++ rel ++ " ") = true := by
  obtain ⟨res, effs, j1, lt, j2, hrun, hres, hrid, hm, hfs⟩ :=
    create_ok_shape digest root env rid fs m hcreate
  have hmanifest : ({ m with hashes := [] } : Manifest) = manifestOf env res := by
    rw [hm]
    rfl
  have hmne : digest (serializeManifest m) ≠
      digest (serializeManifest (manifestOf env res)) := by
    intro hdig
    have heqs := hinj _ _ hdig
    have hne2 := serializeManifest_hashes_ne m (by rw [hm]; simp)
    rw [hmanifest] at hne2
    exact hne2 heqs.symm
  subst hfs
  rcases hrel with hrel | hrel <;> subst hrel
  · have hold' : oldContent = env.sat.dratContent := by
      simp +decide [fsGet, dratRel, lratRel, dratCheckRel, lratCheckRel] at hold
      exact hold.symm
    have hdne : digest newContent ≠ digest env.sat.dratContent := by
      intro hdig
      exact hnew (by rw [hold']; exact hinj _ _ hdig)
    rw [hm]
    simp only [verify_run_bundle_hashes]
    have hsort : sortByKey
        (({ manifestOf env res with hashes :=
          [("input.cnf", digest env.cnfContent),
           ("solver_stdout.txt", digest res.stdout),
           ("solver_stderr.txt", digest res.stderr),
           ("manifest.json", digest (serializeManifest (manifestOf env res))),
           (dratRel, digest env.sat.dratContent),
           (lratRel, digest lt),
           (dratCheckRel, digest j1),
           (lratCheckRel, digest j2)] } : Manifest)).hashes =
        [("input.cnf", digest env.cnfContent),
         ("manifest.json", digest (serializeManifest (manifestOf env res))),
         ("proofcheck/drat-trim.json", digest j1),
         ("proofcheck/lrat-trim.json", digest j2),
         ("proofs/proof.drat", digest env.sat.dratContent),
         ("proofs/proof.lrat", digest lt),
         ("solver_stderr.txt", digest res.stderr),
         ("solver_stdout.txt", digest res.stdout)] := by
      simp +decide [sortByKey, insertSorted, dratRel, lratRel, dratCheckRel,
        lratCheckRel]
    rw [hsort]
    rw [hm] at hmne
    simp only [dratRel, lratRel, dratCheckRel, lratCheckRel] at hmne
    simp +decide [fsSet, fsGet, List.foldl, hmne, hdne, dratRel, lratRel,
      dratCheckRel, lratCheckRel]
    exact ⟨_, _, ⟨rfl, rfl⟩, prefix_extend3 _ _ _ _ _ (by decide),
      prefix_extend3 _ _ _ _ _ (by decide)⟩
  · have hold' : oldContent = lt := by
      simp +decide [fsGet, dratRel, lratRel, dratCheckRel, lratCheckRel] at hold
      exact hold.symm
    have hdne : digest newContent ≠ digest lt := by
      intro hdig
      exact hnew (by rw [hold']; exact hinj _ _ hdig)
    rw [hm]
    simp only [verify_run_bundle_hashes]
    have hsort : sortByKey
        (({ manifestOf env res with hashes :=
          [("input.cnf", digest env.cnfContent),
           ("solver_stdout.txt", digest res.stdout),
           ("solver_stderr.txt", digest res.stderr),
           ("manifest.json", digest (serializeManifest (manifestOf env res))),
           (dratRel, digest env.sat.dratContent),
           (lratRel, digest lt),
           (dratCheckRel, digest j1),
           (lratCheckRel, digest j2)] } : Manifest)).hashes =
        [("input.cnf", digest env.cnfContent),
         ("manifest.json", digest (serializeManifest (manifestOf env res))),
         ("proofcheck/drat-trim.json", digest j1),
         ("proofcheck/lrat-trim.json", digest j2),
         ("proofs/proof.drat", digest env.sat.dratContent),
         ("proofs/proof.lrat", digest lt),
         ("solver_stderr.txt", digest res.stderr),
         ("solver_stdout.txt", digest res.stdout)] := by
      simp +decide [sortByKey, insertSorted, dratRel, lratRel, dratCheckRel,
        lratCheckRel]
    rw [hsort]
    rw [hm] at hmne
    simp only [dratRel, lratRel, dratCheckRel, lratCheckRel] at hmne
    simp +decide [fsSet, fsGet, List.foldl, hmne, hdne, dratRel, lratRel,
      dratCheckRel, lratCheckRel]
    exact ⟨_, _, ⟨rfl, rfl⟩, prefix_extend3 _ _ _ _ _ (by decide),
      prefix_extend3 _ _ _ _ _ (by decide)⟩

set_option maxRecDepth 200000 in
/-- Witness for C4 (amended) at the concrete demo bundle: flipping the
byte `0` to `1` in the sealed DRAT proof yields ok=false and exactly the
manifest self-hash mismatch plus the proof-file mismatch. -/
theorem C4_mutated_proof_mismatch_witness :
    (verify_run_bundle_hashes idDigest (fsSet createDemo.2.1 dratRel "1\n") mDemo).1
      = false ∧
    ∃ e1 e2,
      (verify_run_bundle_hashes idDigest (fsSet createDemo.2.1 dratRel "1\n") mDemo).2
        = [e1, e2] ∧
      pyStartsWith e1 "mismatch: manifest.json " = true ∧
      pyStartsWith e2 ("mismatch: " ++ dratRel ++ " ") = true := by
  have h1 : createDemo.1 = .ok "20250101T000000Z-00000000" := by decide
  have hsome : (createDemo.2.2).isSome = true := by decide
  have h3 : createDemo.2.2 = some mDemo := by
    unfold mDemo
    cases hc : createDemo.2.2 with
    | none => rw [hc] at hsome; exact absurd hsome (by simp)
    | some mv => simp
  have hcr : create_demo_run_bundle idDigest "/repo" packEnvDemo =
      (Except.ok "20250101T000000Z-00000000", createDemo.2.1, some mDemo) := by
    have he : createDemo = (createDemo.1, createDemo.2.1, createDemo.2.2) := rfl
    rw [h1, h3] at he
    exact he
  exact C4_mutated_proof_mismatch idDigest "/repo" packEnvDemo
    "20250101T000000Z-00000000" createDemo.2.1 mDemo hcr (fun x y hxy => hxy)
    dratRel "1\n" "0\n" (Or.inl rfl) (by decide) (by decide)

end Omniforge

